import Mathlib

/-!
Verification of the market-guard signal-detection engine specification.

The repository ships a React frontend (TypeScript) whose type declarations
(`src/unnamed/part_004`, `src/frontend/src/...`) define the output schema the
backend engine produces, together with design documents.  The backend engine
itself (indicator calculation, day classification, cluster counting, the
rally/FTD state machine, regime classification) is not present among the source
files, so those components are modelled here directly from the specification's
words; definitions embedding actual source code cite the file and lines they
come from.
-/

namespace MarketGuard

/-! ## Warning schema, from `src/unnamed/part_004` lines 1-10 -/

/-- Values of the `type` field of `WarningPayload`: the TS union
`'top' | 'bottom'` (src/unnamed/part_004, line 4). -/
inductive WarningScope
  | top
  | bottom
deriving DecidableEq

/-- Values of `WarningSeverity`: the TS union
`'info' | 'watch' | 'alert' | 'high' | 'invalidated'`
(src/unnamed/part_004, line 1). -/
inductive WarningSeverity
  | info
  | watch
  | alert
  | high
  | invalidated
deriving DecidableEq

/-- Scalar values allowed in a warning's `evidence` record:
`number | string | null | undefined` (src/unnamed/part_004, line 9). -/
inductive EvidenceValue
  | num (q : ℚ)
  | str (s : String)
  | null
deriving DecidableEq

/-- Embedding of the `WarningPayload` interface (src/unnamed/part_004,
lines 3-10).  The TS field is literally named `type`; Lean reserves that word,
so the Lean field is `type_` while the literal source field name is recorded
in `warningPayloadFieldNames`.  `ttl_days` and `evidence` are optional
(`?:`) fields. -/
structure WarningPayload where
  type_ : WarningScope
  code : String
  severity : WarningSeverity
  message : String
  ttl_days : Option Nat
  evidence : Option (List (String × EvidenceValue))

/-- Literal field names of the `WarningPayload` interface, in declaration
order (src/unnamed/part_004, lines 3-10). -/
def warningPayloadFieldNames : List String :=
  ["type", "code", "severity", "message", "ttl_days", "evidence"]

/-! ## Confirmation-cycle summary schema, from `src/unnamed/part_004` lines 27-32 -/

/-- Values of the `FTDInfo.status` field: the TS union
`'none' | 'active' | 'invalidated'` (src/unnamed/part_004, line 28). -/
inductive FTDStatus
  | none
  | active
  | invalidated
deriving DecidableEq

/-- Literal string of each `FTDInfo.status` value (src/unnamed/part_004,
line 28). -/
def FTDStatus.toName : FTDStatus → String
  | .none => "none"
  | .active => "active"
  | .invalidated => "invalidated"

/-- Literal status values of the `FTDInfo.status` union, in declaration order
(src/unnamed/part_004, line 28). -/
def ftdStatusValues : List String :=
  ["none", "active", "invalidated"]

/-- Embedding of the `FTDInfo` interface (src/unnamed/part_004, lines 27-32). -/
structure FTDInfo where
  status : FTDStatus
  date : Option String
  invalidated_on : Option String
  day1 : Option String

/-- Literal field names of the `FTDInfo` interface, in declaration order
(src/unnamed/part_004, lines 27-32). -/
def ftdInfoFieldNames : List String :=
  ["status", "date", "invalidated_on", "day1"]

/-! ## Severity ranking, from `src/unnamed/part_000` lines 261-266 -/

/-- Embedding of the `severityPriority` record (src/unnamed/part_000,
lines 261-266): `{ info: 1, watch: 2, alert: 3, high: 4 }`.  The severity
`invalidated` has no entry. -/
def severityPriority : List (String × Nat) :=
  [("info", 1), ("watch", 2), ("alert", 3), ("high", 4)]

/-- Rank lookup in `severityPriority`; `Option.none` models a missing key of
the TS record. -/
def severityRank (s : String) : Option Nat :=
  (severityPriority.find? (fun p => p.1 == s)).map Prod.snd

/-- The program's ranked comparison `severityPriority[x] ?? 0`
(src/unnamed/part_000, lines 308-318): a missing key ranks as 0. -/
def severityRankOrZero (s : String) : Nat :=
  (severityRank s).getD 0

/-- Ranked strict comparison between two severities, as performed by the
`highlightTarget` reduction (`candidateRank > bestRank`,
src/unnamed/part_000, line 317). -/
def sevLt (a b : String) : Bool :=
  decide (severityRankOrZero a < severityRankOrZero b)

/-- The four severities that carry a rank in `severityPriority`. -/
def rankedSeverities : List String :=
  ["info", "watch", "alert", "high"]

/-! ## Regime labels, from `src/frontend/src/components/SummaryTable.tsx` lines 7-12 -/

/-- Embedding of the `regimeColor` record (src/frontend/src/components/
SummaryTable.tsx lines 7-12, identical in src/unnamed/part_001 lines 7-12):
the regime labels the dashboard recognizes, with their colors.  Note the key
`"Under Pressure"` is spelled with a space. -/
def regimeColor : List (String × String) :=
  [("Uptrend", "#22c55e"),
   ("Under Pressure", "#f97316"),
   ("Correction", "#ef4444"),
   ("Neutral", "#0ea5e9")]

/-- Regime labels recognized by the dashboard: the keys of `regimeColor`. -/
def regimeColorKeys : List String :=
  regimeColor.map Prod.fst

/-- Abstract regime labels of the classifier (spec §4.5). -/
inductive RegimeLabel
  | uptrend
  | underPressure
  | correction
  | neutral
deriving DecidableEq

/-- Display name of each regime label, as the frontend `regimeColor` map keys
them (src/frontend/src/components/SummaryTable.tsx lines 7-12): the
under-pressure label is rendered `"Under Pressure"`, with a space. -/
def RegimeLabel.toName : RegimeLabel → String
  | .uptrend => "Uptrend"
  | .underPressure => "Under Pressure"
  | .correction => "Correction"
  | .neutral => "Neutral"

/-- Modelled from the spec: the comparison of a close against a possibly
undefined moving average (§4.1, §4.5) — the backend RegimeClassifier is not
under src/.  An undefined moving average compares as "not below". -/
def ltMA (close : ℚ) (ma : Option ℚ) : Bool :=
  match ma with
  | some m => decide (close < m)
  | Option.none => false

/-- Modelled from the spec: RegimeClassifier (§4.5) — the backend classifier
is not under src/.  A pure function of the same day's cluster count, close
versus moving averages, and confirmation-active state, evaluated with fixed
priority: Correction, then UnderPressure, then Uptrend, else Neutral. -/
def regimeOf (clusterAlert clusterHigh ddCount : Nat) (close : ℚ)
    (ma21 ma50 : Option ℚ) (ftdActive : Bool) : RegimeLabel :=
  if decide (clusterHigh ≤ ddCount) || ltMA close ma50 then .correction
  else if decide (clusterAlert ≤ ddCount) || ltMA close ma21 then .underPressure
  else if ftdActive then .uptrend
  else .neutral

/-! ## Claims C1, C2, C7, C8: schema and ordering facts -/

/-- Claim C1, counterexample.  The claim asserts the warning schema exposes
exactly the fields {scope, code, severity, message, evidence, ttlDays}.  In
the code (`WarningPayload`, src/unnamed/part_004 lines 3-10) there is no field
named `scope` — the scope lives in a field named `type` — and no field named
`ttlDays` — the TTL lives in `ttl_days`. -/
theorem warning_field_names_counterexample :
    ("scope" ∉ warningPayloadFieldNames) ∧
    ("ttlDays" ∉ warningPayloadFieldNames) ∧
    ("type" ∈ warningPayloadFieldNames) ∧
    ("ttl_days" ∈ warningPayloadFieldNames) := by
  decide

/-- Claim C1, amended.  Every warning value exposed at the output interface
has exactly the fields {type, code, severity, message, ttl_days (optional),
evidence (optional)}, with the scope-carrying field `type` taking one of the
two values top or bottom. -/
theorem warning_schema_amended :
    warningPayloadFieldNames =
      ["type", "code", "severity", "message", "ttl_days", "evidence"] ∧
    ∀ w : WarningPayload,
      w.type_ = WarningScope.top ∨ w.type_ = WarningScope.bottom := by
  refine ⟨rfl, fun w => ?_⟩
  cases h : w.type_
  · exact Or.inl rfl
  · exact Or.inr rfl

/-- Claim C2, counterexample.  The claim asserts the confirmation status takes
one of exactly four values (None, Pending, Active, Invalidated) and that the
summary's confirmation object carries fields `invalidatedOn` and `day1Date`.
In the code (`FTDInfo`, src/unnamed/part_004 lines 27-32) the status union has
exactly three values — `pending` is not among them — and the fields are named
`invalidated_on` and `day1`. -/
theorem ftd_status_counterexample :
    ("pending" ∉ ftdStatusValues) ∧
    ftdStatusValues.length = 3 ∧
    ("invalidatedOn" ∉ ftdInfoFieldNames) ∧
    ("day1Date" ∉ ftdInfoFieldNames) := by
  decide

/-- Claim C2, amended.  For every instrument, the confirmation-cycle status
carried in the summary record takes one of exactly the three values none,
active, invalidated (there is no pending status value in the summary), and
the summary's confirmation object carries the fields status, date,
invalidated_on, day1. -/
theorem ftd_confirmation_amended :
    (∀ s : FTDStatus, s.toName ∈ ftdStatusValues) ∧
    ftdStatusValues.length = 3 ∧
    ftdInfoFieldNames = ["status", "date", "invalidated_on", "day1"] := by
  refine ⟨fun s => ?_, rfl, rfl⟩
  cases s <;> decide

/-- Claim C7, counterexample.  The claim asserts the regime label takes the
value `UnderPressure` with exactly that spelling; the dashboard's regime map
(`regimeColor`, src/frontend/src/components/SummaryTable.tsx lines 7-12)
instead keys the label as `"Under Pressure"`, with a space, and has no key
spelled `"UnderPressure"`. -/
theorem regime_spelling_counterexample :
    ("UnderPressure" ∉ regimeColorKeys) ∧
    ("Under Pressure" ∈ regimeColorKeys) := by
  decide

/-- Claim C7, amended.  For every instrument and every day, the regime label
produced in the output is one of exactly the four values `Uptrend`,
`Under Pressure` (spelled with a space), `Correction`, `Neutral` — the keys
of the dashboard's `regimeColor` map — and it is a pure function
(`regimeOf`) of that same day's cluster count, close, moving averages, and
confirmation state. -/
theorem regime_label_amended (clusterAlert clusterHigh ddCount : Nat)
    (close : ℚ) (ma21 ma50 : Option ℚ) (ftdActive : Bool) :
    (regimeOf clusterAlert clusterHigh ddCount close ma21 ma50
        ftdActive).toName ∈ regimeColorKeys ∧
    regimeColorKeys = ["Uptrend", "Under Pressure", "Correction", "Neutral"] := by
  refine ⟨?_, by decide⟩
  cases regimeOf clusterAlert clusterHigh ddCount close ma21 ma50 ftdActive <;>
    decide

/-- Claim C8.  The warning severities info, watch, alert, high form a strict
total order info < watch < alert < high under the program's ranking
(`severityPriority`, src/unnamed/part_000 lines 261-266), while the severity
`invalidated` has no rank entry at all and so does not participate in the
order (the ranking site treats it as rank 0 via the `?? 0` fallback). -/
theorem severity_order :
    (sevLt "info" "watch" = true ∧ sevLt "watch" "alert" = true ∧
      sevLt "alert" "high" = true) ∧
    (∀ a ∈ rankedSeverities, sevLt a a = false) ∧
    (∀ a ∈ rankedSeverities, ∀ b ∈ rankedSeverities,
      a ≠ b → (sevLt a b = true ∨ sevLt b a = true) ∧
        ¬(sevLt a b = true ∧ sevLt b a = true)) ∧
    (∀ a ∈ rankedSeverities, ∀ b ∈ rankedSeverities, ∀ c ∈ rankedSeverities,
      sevLt a b = true → sevLt b c = true → sevLt a c = true) ∧
    severityRank "invalidated" = Option.none ∧
    severityRankOrZero "invalidated" = 0 := by
  decide

/-! ## IndicatorCalculator and DayClassifier, modelled from the spec -/

/-- Modelled from the spec: IndicatorCalculator's volumeRatio (§4.1) — the
backend indicator code is not under src/.  `volumeRatio` is
`some (v / vPrev)` when the previous volume is positive, and `Option.none`
(the "not greater than previous" sentinel) otherwise; a total function, so
no division fault can occur. -/
def volumeRatio (vPrev v : ℚ) : Option ℚ :=
  if 0 < vPrev then some (v / vPrev) else Option.none

/-- Modelled from the spec: the classifier's "volumeRatio > x" test (§4.1) —
the sentinel `Option.none` makes every such comparison false. -/
def vrGreaterThan (vr : Option ℚ) (x : ℚ) : Bool :=
  match vr with
  | some r => decide (x < r)
  | Option.none => false

/-- Modelled from the spec: the percentage day-over-day change (§4.1),
`(close(t) - close(t-1)) / close(t-1) * 100`; the caller passes
`Option.none` for the first day. -/
def pctChangeOf (prevClose close : ℚ) : ℚ :=
  (close - prevClose) / prevClose * 100

/-- Modelled from the spec: DayClassifier's distribution-day test (§4.2):
`pctChange(t) ≤ dropThreshold AND volumeRatio(t) > 1`; an undefined
pctChange (first day) classifies as false. -/
def isDistributionDay (pct vr : Option ℚ) (dropThreshold : ℚ) : Bool :=
  (match pct with
   | some p => decide (p ≤ dropThreshold)
   | Option.none => false) && vrGreaterThan vr 1

/-- Modelled from the spec: DayClassifier's churn-day test (§4.2), evaluated
only when the distribution-day test is false:
`|pctChange(t)| ≤ churnBand AND volumeRatio(t) > 1`. -/
def isChurnDay (pct vr : Option ℚ) (dropThreshold churnBand : ℚ) : Bool :=
  !(isDistributionDay pct vr dropThreshold) &&
    (match pct with
     | some p => decide (|p| ≤ churnBand)
     | Option.none => false) && vrGreaterThan vr 1

/-- Claim C6.  For every day whose previous volume is zero, `volumeRatio`
returns the sentinel (no division is attempted, so no fault), the sentinel
never satisfies any ">" comparison — in particular it never counts as
greater than 1 — and such a day is classified neither distribution nor
churn, whatever its price change. -/
theorem volume_ratio_zero_prev_safe (v x dropThreshold churnBand : ℚ)
    (pct : Option ℚ) :
    volumeRatio 0 v = Option.none ∧
    vrGreaterThan (volumeRatio 0 v) x = false ∧
    isDistributionDay pct (volumeRatio 0 v) dropThreshold = false ∧
    isChurnDay pct (volumeRatio 0 v) dropThreshold churnBand = false := by
  have h0 : volumeRatio 0 v = Option.none := by
    simp [volumeRatio]
  refine ⟨h0, ?_, ?_, ?_⟩
  · rw [h0]; rfl
  · rw [h0]; simp [isDistributionDay, vrGreaterThan]
  · rw [h0]; simp [isChurnDay, vrGreaterThan]

/-! ## ClusterCounter, modelled from the spec (§4.3) -/

/-- Modelled from the spec: the ClusterCounter's rolling state (§4.3) — the
backend counter is not under src/.  It keeps the trailing window of at most
`ttlDays` day flags (oldest first) together with the running count of set
flags; the claim applies it separately to the distribution-day flags and the
churn flags. -/
structure RollState where
  window : List Bool
  count : Nat
deriving DecidableEq

/-- Modelled from the spec: the ClusterCounter's O(1) per-day update (§4.3):
push the new flag and bump the count; if the window now exceeds `ttl`, drop
the oldest flag, decrementing its contribution to the count. -/
def RollState.push (ttl : Nat) (s : RollState) (flag : Bool) : RollState :=
  let w := s.window ++ [flag]
  let c := s.count + (if flag then 1 else 0)
  if ttl < w.length then
    { window := w.drop 1, count := c - (if w.headD false then 1 else 0) }
  else
    { window := w, count := c }

/-- Rolling run of the ClusterCounter over a flag sequence, starting empty. -/
def rollRun (ttl : Nat) (flags : List Bool) : RollState :=
  flags.foldl (RollState.push ttl) ⟨[], 0⟩

/-- Trailing window of at most `ttl` elements of a list: its last
`min ttl length` elements. -/
def trailing (ttl : Nat) (l : List Bool) : List Bool :=
  l.drop (l.length - ttl)

/-- Specification-side definition, following the spec's words (§4.3, §8):
the naive full recount of set flags over exactly the trailing
min(ttl, t+1) days ending at day t. -/
def naiveRecount (ttl : Nat) (flags : List Bool) (t : Nat) : Nat :=
  (trailing ttl (flags.take (t + 1))).count true

lemma drop_one_concat (l : List Bool) (k : Nat) (f : Bool) :
    ((l.drop k) ++ [f]).drop 1 = (l ++ [f]).drop (k + 1) := by
  induction l generalizing k with
  | nil => simp
  | cons a t ih =>
    cases k with
    | zero => simp
    | succ m => simpa using ih m

lemma push_inv (ttl : Nat) (l : List Bool) (f : Bool) (s : RollState)
    (hw : s.window = trailing ttl l) (hc : s.count = s.window.count true) :
    (RollState.push ttl s f).window = trailing ttl (l ++ [f]) ∧
    (RollState.push ttl s f).count = (trailing ttl (l ++ [f])).count true := by
  have hlen : s.window.length = min ttl l.length := by
    rw [hw]; simp [trailing]; omega
  unfold RollState.push
  by_cases h : ttl < (s.window ++ [f]).length
  · simp only [h, if_true]
    have hn : ttl ≤ l.length := by
      simp only [List.length_append, List.length_singleton, hlen] at h
      omega
    have hwin : (s.window ++ [f]).drop 1 = trailing ttl (l ++ [f]) := by
      rw [hw, trailing, trailing, drop_one_concat, List.length_append]
      congr 1
      simp only [List.length_singleton]
      omega
    refine ⟨hwin, ?_⟩
    have hcount : (s.window ++ [f]).count true =
        s.count + (if f then 1 else 0) := by
      rw [List.count_append, hc]
      cases f <;> simp
    have hsplit : (s.window ++ [f]).count true =
        (if (s.window ++ [f]).headD false then 1 else 0) +
          ((s.window ++ [f]).drop 1).count true := by
      rcases hcons : s.window ++ [f] with _ | ⟨a, tl⟩
      · simp at hcons
      · cases a <;> simp [List.count_cons, Nat.add_comm]
    rw [← hwin]
    cases hh : (s.window ++ [f]).headD false
    · rw [hh] at hsplit
      simp only [if_false, Bool.false_eq_true, zero_add] at hsplit ⊢
      omega
    · rw [hh] at hsplit
      simp only [if_true] at hsplit ⊢
      omega
  · simp only [h, if_false]
    have hn : l.length < ttl := by
      simp only [List.length_append, List.length_singleton, hlen] at h
      omega
    have hfull : s.window = l := by
      rw [hw, trailing]
      have he : l.length - ttl = 0 := by omega
      rw [he, List.drop_zero]
    have hwin : s.window ++ [f] = trailing ttl (l ++ [f]) := by
      rw [hfull, trailing, List.length_append]
      simp only [List.length_singleton]
      have he : l.length + 1 - ttl = 0 := by omega
      rw [he, List.drop_zero]
    refine ⟨hwin, ?_⟩
    rw [← hwin, List.count_append, hc]
    cases f <;> simp

lemma rollRun_spec (ttl : Nat) (flags : List Bool) :
    (rollRun ttl flags).window = trailing ttl flags ∧
    (rollRun ttl flags).count = (trailing ttl flags).count true := by
  induction flags using List.reverseRecOn with
  | nil => exact ⟨by simp [rollRun, trailing], by simp [rollRun, trailing]⟩
  | append_singleton l f ih =>
    have hstep : rollRun ttl (l ++ [f]) =
        RollState.push ttl (rollRun ttl l) f := by
      simp [rollRun, List.foldl_append]
    rw [hstep]
    exact push_inv ttl l f (rollRun ttl l) ih.1 (by rw [ih.1]; exact ih.2)

/-- Claim C3.  For every flag sequence (instantiated with the
distribution-day flags and, analogously, the churn flags) and every day t
already processed, the count snapshot the rolling ClusterCounter exposes for
day t equals the naive full recount over exactly the trailing
min(ttl, t+1) days ending at t — the O(1) rolling update is equivalent to
the naive rescan, and its window holds exactly min(ttl, t+1) days. -/
theorem cluster_rolling_eq_recount (ttl : Nat) (flags : List Bool) (t : Nat)
    (ht : t < flags.length) :
    (rollRun ttl (flags.take (t + 1))).count = naiveRecount ttl flags t ∧
    (rollRun ttl (flags.take (t + 1))).window.length = min ttl (t + 1) := by
  have h := rollRun_spec ttl (flags.take (t + 1))
  refine ⟨h.2, ?_⟩
  rw [h.1, trailing, List.length_drop, List.length_take]
  omega

/-- Claim C3, witness: the rolling snapshot agrees with the naive recount at
ttl = 2, flags = [true, false, true, true], day 2. -/
theorem cluster_rolling_eq_recount_witness :
    (rollRun 2 ([true, false, true, true].take 3)).count =
      naiveRecount 2 [true, false, true, true] 2 ∧
    (rollRun 2 ([true, false, true, true].take 3)).window.length = min 2 3 :=
  cluster_rolling_eq_recount 2 [true, false, true, true] 2 (by decide)

/-! ## RallyFTDDetector confirmation search, modelled from the spec (§4.4) -/

/-- First index at which `q` holds, scanning `n` consecutive indices starting
at `start`; `Option.none` when no scanned index qualifies. -/
def findFirstFrom (q : Nat → Bool) (start : Nat) : Nat → Option Nat
  | 0 => Option.none
  | n + 1 => if q start then some start else findFirstFrom q (start + 1) n

/-- Modelled from the spec: the confirmation ("FTD") search (§4.4 item 2) —
the backend detector is not under src/.  Scanning forward from Day1 at
trading-day offsets `wmin` through `wmax` inclusive (default 4 through 10),
the first day satisfying the gain and volume conditions becomes the
confirmation date; `Option.none` when no day in the window qualifies. -/
def confirmationDate (wmin wmax day1 : Nat) (q : Nat → Bool) : Option Nat :=
  findFirstFrom q (day1 + wmin) (wmax + 1 - wmin)

/-- Modelled from the spec: the gain and volume conditions a confirmation day
must satisfy (§4.4 item 2): `pctChange(t) ≥ gainThreshold AND
volumeRatio(t) > 1`. -/
def ftdQualifies (pct vr : Nat → Option ℚ) (gainThreshold : ℚ) (t : Nat) :
    Bool :=
  (match pct t with
   | some p => decide (gainThreshold ≤ p)
   | Option.none => false) && vrGreaterThan (vr t) 1

lemma findFirstFrom_bounds (q : Nat → Bool) :
    ∀ (n start x : Nat), findFirstFrom q start n = some x →
      start ≤ x ∧ x < start + n := by
  intro n
  induction n with
  | zero =>
    intro start x hx
    simp [findFirstFrom] at hx
  | succ m ih =>
    intro start x hx
    rw [findFirstFrom] at hx
    by_cases hq : q start
    · rw [if_pos hq] at hx
      cases hx
      omega
    · rw [if_neg hq] at hx
      have hb := ih (start + 1) x hx
      omega

/-- Claim C4.  For every Pending cycle, a confirmation is produced only at
trading-day offsets 4 through 10 inclusive after Day1: (1) when no day in
the window qualifies, a qualifying day at offset 11 produces no
confirmation at all; (2) a qualifying day at offset 10, with no earlier
in-window day qualifying, is the confirmation date; (3) the confirmation
date is never the day at offset 11. -/
theorem ftd_window_boundary :
    (∀ (day1 : Nat) (q : Nat → Bool), q (day1 + 11) = true →
      (∀ off, 4 ≤ off → off ≤ 10 → q (day1 + off) = false) →
      confirmationDate 4 10 day1 q = Option.none) ∧
    (∀ (day1 : Nat) (q : Nat → Bool), q (day1 + 10) = true →
      (∀ off, 4 ≤ off → off < 10 → q (day1 + off) = false) →
      confirmationDate 4 10 day1 q = some (day1 + 10)) ∧
    (∀ (day1 : Nat) (q : Nat → Bool) (x : Nat),
      confirmationDate 4 10 day1 q = some x → x ≠ day1 + 11) := by
  have expand : ∀ (day1 : Nat) (q : Nat → Bool),
      confirmationDate 4 10 day1 q =
        if q (day1 + 4) then some (day1 + 4)
        else if q (day1 + 5) then some (day1 + 5)
        else if q (day1 + 6) then some (day1 + 6)
        else if q (day1 + 7) then some (day1 + 7)
        else if q (day1 + 8) then some (day1 + 8)
        else if q (day1 + 9) then some (day1 + 9)
        else if q (day1 + 10) then some (day1 + 10)
        else Option.none := by
    intro day1 q
    show findFirstFrom q (day1 + 4) 7 = _
    rw [findFirstFrom, findFirstFrom, findFirstFrom, findFirstFrom,
      findFirstFrom, findFirstFrom, findFirstFrom]
    have e5 : day1 + 4 + 1 = day1 + 5 := by omega
    have e6 : day1 + 4 + 1 + 1 = day1 + 6 := by omega
    have e7 : day1 + 4 + 1 + 1 + 1 = day1 + 7 := by omega
    have e8 : day1 + 4 + 1 + 1 + 1 + 1 = day1 + 8 := by omega
    have e9 : day1 + 4 + 1 + 1 + 1 + 1 + 1 = day1 + 9 := by omega
    have e10 : day1 + 4 + 1 + 1 + 1 + 1 + 1 + 1 = day1 + 10 := by omega
    rw [e5, e6, e7, e8, e9, e10]
    rfl
  refine ⟨?_, ?_, ?_⟩
  · intro day1 q _ hnone
    rw [expand day1 q]
    rw [hnone 4 (by omega) (by omega), hnone 5 (by omega) (by omega),
      hnone 6 (by omega) (by omega), hnone 7 (by omega) (by omega),
      hnone 8 (by omega) (by omega), hnone 9 (by omega) (by omega),
      hnone 10 (by omega) (by omega)]
    rfl
  · intro day1 q h10 hpre
    rw [expand day1 q]
    rw [hpre 4 (by omega) (by omega), hpre 5 (by omega) (by omega),
      hpre 6 (by omega) (by omega), hpre 7 (by omega) (by omega),
      hpre 8 (by omega) (by omega), hpre 9 (by omega) (by omega), h10]
    rfl
  · intro day1 q x hx
    have hb := findFirstFrom_bounds q 7 (day1 + 4) x hx
    omega

/-- Claim C4, witness: with Day1 at index 0, a qualifying day only at offset
11 yields no confirmation, and a qualifying day at offset 10 (nothing
earlier in the window qualifying) yields the confirmation at offset 10. -/
theorem ftd_window_boundary_witness :
    confirmationDate 4 10 0 (fun t => decide (t = 11)) = Option.none ∧
    confirmationDate 4 10 0 (fun t => decide (10 ≤ t)) = some (0 + 10) := by
  constructor
  · exact ftd_window_boundary.1 0 (fun t => decide (t = 11))
      (by decide)
      (by intro off h1 h2; simp only [decide_eq_false_iff_not]; omega)
  · exact ftd_window_boundary.2.1 0 (fun t => decide (10 ≤ t))
      (by decide)
      (by intro off h1 h2; simp only [decide_eq_false_iff_not]; omega)

/-! ## RallyFTDDetector state machine, modelled from the spec (§4.4) -/

/-- Modelled from the spec: the per-cycle statuses of the rally/FTD state
machine (§4.4): None, Pending, Active, Invalidated. -/
inductive CycleStatus
  | none
  | pending
  | active
  | invalidated
deriving DecidableEq

/-- Forward-progress rank of a status: None and Pending sit at the same
level, Active above them, Invalidated terminal. -/
def CycleStatus.rank : CycleStatus → Nat
  | .none => 0
  | .pending => 0
  | .active => 1
  | .invalidated => 2

/-- Modelled from the spec: per-day observations the cycle machine reads
(§4.4): whether the day is a Day1 candidate, a qualifying in-window
confirmation day, whether the confirmation window just closed unmatched,
whether the day is a distribution day, and whether its close undercuts
Day1's low. -/
structure DayObs where
  isDay1 : Bool
  isConf : Bool
  windowClosed : Bool
  isDD : Bool
  undercut : Bool
deriving DecidableEq

/-- Modelled from the spec: the state of one confirmation cycle: its status,
the number of trading days since the confirmation date, and the count of
distribution days seen within the 5 trading days after confirmation. -/
structure CycleState where
  status : CycleStatus
  confAge : Nat
  ddSinceConf : Nat
deriving DecidableEq

/-- Modelled from the spec: one day of the RallyFTDDetector state machine
(§4.4) — the backend detector is not under src/.  None moves to Pending on a
Day1 candidate; Pending moves to Active on a qualifying confirmation day and
reverts to None when the window closes unmatched; once Active, the first day
on which the count of distribution days within the 5 trading days after the
confirmation date reaches 2, or the close undercuts Day1's low, moves the
cycle to Invalidated; Invalidated is terminal. -/
def cycleStep (s : CycleState) (d : DayObs) : CycleState :=
  match s.status with
  | .invalidated => s
  | .none => if d.isDay1 then { s with status := .pending } else s
  | .pending =>
      if d.isConf then { status := .active, confAge := 0, ddSinceConf := 0 }
      else if d.windowClosed then { s with status := .none }
      else s
  | .active =>
      let age := s.confAge + 1
      let dd := s.ddSinceConf + (if d.isDD && decide (age ≤ 5) then 1 else 0)
      if decide (2 ≤ dd) || d.undercut then
        { status := .invalidated, confAge := age, ddSinceConf := dd }
      else
        { status := .active, confAge := age, ddSinceConf := dd }

/-- Run of the cycle machine over a day sequence. -/
def cycleRun (s : CycleState) (days : List DayObs) : CycleState :=
  days.foldl cycleStep s

/-- State of a cycle on its confirmation date: Active, zero days since
confirmation, no distribution days counted yet. -/
def confirmedInit : CycleState :=
  { status := .active, confAge := 0, ddSinceConf := 0 }

lemma cycleStep_rank_mono (s : CycleState) (d : DayObs) :
    s.status.rank ≤ (cycleStep s d).status.rank := by
  cases hs : s.status
  case none =>
    simp only [cycleStep, hs]
    split
    · exact Nat.zero_le _
    · exact Nat.zero_le _
  case pending =>
    simp only [cycleStep, hs]
    split
    · exact Nat.zero_le _
    · split
      · exact Nat.zero_le _
      · exact Nat.zero_le _
  case active =>
    simp only [cycleStep, hs]
    split <;> split <;> simp [CycleStatus.rank]
  case invalidated =>
    simp only [cycleStep, hs]
    exact Nat.le_refl _

lemma cycleRun_rank_mono (s : CycleState) (l : List DayObs) :
    s.status.rank ≤ (cycleRun s l).status.rank := by
  induction l generalizing s with
  | nil => exact le_refl _
  | cons d l ih =>
    calc s.status.rank ≤ (cycleStep s d).status.rank :=
          cycleStep_rank_mono s d
      _ ≤ (cycleRun (cycleStep s d) l).status.rank := ih (cycleStep s d)
      _ = (cycleRun s (d :: l)).status.rank := rfl

lemma cycleRun_invalidated_absorbing (s : CycleState) (l : List DayObs)
    (hs : s.status = CycleStatus.invalidated) :
    (cycleRun s l).status = CycleStatus.invalidated := by
  induction l generalizing s with
  | nil => exact hs
  | cons d l ih =>
    have hstep : cycleStep s d = s := by
      simp [cycleStep, hs]
    show (cycleRun (cycleStep s d) l).status = CycleStatus.invalidated
    rw [hstep]
    exact ih s hs

lemma cycleRun_stays_active (days : List DayObs) :
    ∀ (j : Nat), j ≤ days.length → j ≤ 4 →
    ((days.take j).countP (fun d => d.isDD)) ≤ 1 →
    (∀ d ∈ days.take j, d.undercut = false) →
    cycleRun confirmedInit (days.take j) =
      { status := .active, confAge := j,
        ddSinceConf := (days.take j).countP (fun d => d.isDD) } := by
  intro j
  induction j with
  | zero =>
    intro _ _ _ _
    simp [cycleRun, confirmedInit]
  | succ m ih =>
    intro hlen h5 hcnt hnou
    have hm : m < days.length := by omega
    have htake : days.take (m + 1) = days.take m ++ [days.get ⟨m, hm⟩] := by
      rw [List.take_succ]
      congr 1
      rw [List.getElem?_eq_getElem hm]
      rfl
    have hsub : ∀ d ∈ days.take m, d ∈ days.take (m + 1) := by
      intro d hd
      rw [htake]
      exact List.mem_append_left _ hd
    have hcntm : (days.take m).countP (fun d => d.isDD) ≤ 1 := by
      have : (days.take (m + 1)).countP (fun d => d.isDD) =
          (days.take m).countP (fun d => d.isDD) +
            (if (days.get ⟨m, hm⟩).isDD then 1 else 0) := by
        rw [htake, List.countP_append]
        simp [List.countP_cons]
      omega
    have hrun := ih (by omega) (by omega) hcntm
      (fun d hd => hnou d (hsub d hd))
    rw [htake, cycleRun, List.foldl_append]
    show cycleStep (cycleRun confirmedInit (days.take m)) (days.get ⟨m, hm⟩) = _
    rw [hrun]
    have hage : m + 1 ≤ 5 := by omega
    have hddval : (days.take m).countP (fun d => d.isDD) +
        (if (days.get ⟨m, hm⟩).isDD && decide (m + 1 ≤ 5) then 1 else 0) =
        (days.take (m + 1)).countP (fun d => d.isDD) := by
      rw [htake, List.countP_append]
      simp only [decide_eq_true_eq, hage, decide_True, Bool.and_true]
      simp [List.countP_cons]
    have hu : (days.get ⟨m, hm⟩).undercut = false := by
      apply hnou
      rw [htake]
      exact List.mem_append_right _ (by simp)
    simp only [cycleStep, hddval, hu, Bool.or_false]
    have hlt : ¬(2 ≤ (days.take (m + 1)).countP (fun d => d.isDD)) := by
      omega
    simp [hlt]

/-- Claim C5.  A confirmation cycle's status only moves forward through
None/Pending, then Active, then Invalidated as days are processed, and once
Invalidated it never changes again.  Moreover, for an Active cycle whose
second distribution day within the 5 trading days after the confirmation
date occurs on day k (no undercut of Day1's low up to then), the status is
still Active before day k, becomes Invalidated exactly on day k, and stays
Invalidated on every subsequent day. -/
theorem ftd_cycle_forward_only_and_invalidation
    (days : List DayObs) (k : Nat) (hk : k ≤ 4) (hlen : k < days.length)
    (h1 : ((days.take k).countP (fun d => d.isDD)) = 1)
    (h2 : (days.get ⟨k, hlen⟩).isDD = true)
    (hnou : ∀ d ∈ days.take (k + 1), d.undercut = false) :
    (∀ (s : CycleState) (l : List DayObs),
        s.status.rank ≤ (cycleRun s l).status.rank) ∧
    (∀ (s : CycleState) (l : List DayObs),
        s.status = CycleStatus.invalidated →
        (cycleRun s l).status = CycleStatus.invalidated) ∧
    (cycleRun confirmedInit (days.take k)).status = CycleStatus.active ∧
    (cycleRun confirmedInit (days.take (k + 1))).status =
      CycleStatus.invalidated ∧
    (∀ rest, (cycleRun confirmedInit (days.take (k + 1) ++ rest)).status =
      CycleStatus.invalidated) := by
  have htake : days.take (k + 1) = days.take k ++ [days.get ⟨k, hlen⟩] := by
    rw [List.take_succ]
    congr 1
    rw [List.getElem?_eq_getElem hlen]
    rfl
  have hsub : ∀ d ∈ days.take k, d ∈ days.take (k + 1) := by
    intro d hd
    rw [htake]
    exact List.mem_append_left _ hd
  have hact := cycleRun_stays_active days k (by omega) hk
    (by omega) (fun d hd => hnou d (hsub d hd))
  have hinval : cycleRun confirmedInit (days.take (k + 1)) =
      { status := .invalidated, confAge := k + 1, ddSinceConf := 2 } := by
    rw [htake, cycleRun, List.foldl_append]
    show cycleStep (cycleRun confirmedInit (days.take k))
      (days.get ⟨k, hlen⟩) = _
    rw [hact]
    have hage : k + 1 ≤ 5 := by omega
    simp only [cycleStep, h1, h2, decide_eq_true_eq, hage, decide_True,
      Bool.and_true, Bool.true_and, if_true]
    norm_num
  refine ⟨cycleRun_rank_mono, cycleRun_invalidated_absorbing, ?_, ?_, ?_⟩
  · rw [hact]
  · rw [hinval]
  · intro rest
    rw [cycleRun, List.foldl_append]
    exact cycleRun_invalidated_absorbing _ rest (by rw [show
      List.foldl cycleStep confirmedInit (days.take (k + 1)) =
        cycleRun confirmedInit (days.take (k + 1)) from rfl, hinval])

/-- Claim C5, witness: with two distribution days right after the
confirmation date, the cycle is Active after day 0 and Invalidated exactly
on day 1, remaining Invalidated afterwards. -/
theorem ftd_cycle_forward_only_and_invalidation_witness :
    (∀ (s : CycleState) (l : List DayObs),
        s.status.rank ≤ (cycleRun s l).status.rank) ∧
    (∀ (s : CycleState) (l : List DayObs),
        s.status = CycleStatus.invalidated →
        (cycleRun s l).status = CycleStatus.invalidated) ∧
    (cycleRun confirmedInit
      ([⟨false, false, false, true, false⟩,
        ⟨false, false, false, true, false⟩].take 1)).status =
      CycleStatus.active ∧
    (cycleRun confirmedInit
      ([⟨false, false, false, true, false⟩,
        ⟨false, false, false, true, false⟩].take 2)).status =
      CycleStatus.invalidated ∧
    (∀ rest, (cycleRun confirmedInit
      (([⟨false, false, false, true, false⟩,
         ⟨false, false, false, true, false⟩].take 2) ++ rest)).status =
      CycleStatus.invalidated) :=
  ftd_cycle_forward_only_and_invalidation
    [⟨false, false, false, true, false⟩, ⟨false, false, false, true, false⟩]
    1 (by decide) (by decide) (by decide) (by decide) (by decide)

/-! ## The useApi hook state, from `src/unnamed/part_003` -/

/-- Embedding of the `ApiState<T>` interface (src/unnamed/part_004,
lines 66-70): `{ data: T | null, loading: boolean, error: string | null }`. -/
structure ApiState (α : Type) where
  data : Option α
  loading : Bool
  error : Option String
deriving DecidableEq

/-- State the useApi hook starts in and resets to when the effect re-runs:
`{ data: null, loading: true, error: null }` (src/unnamed/part_003,
lines 5 and 9). -/
def apiInitState (α : Type) : ApiState α :=
  { data := Option.none, loading := true, error := Option.none }

/-- State set when the fetch resolves: `{ data, loading: false, error: null }`
(src/unnamed/part_003, line 14). -/
def apiResolvedState {α : Type} (d : α) : ApiState α :=
  { data := some d, loading := false, error := Option.none }

/-- State set when the fetch rejects:
`{ data: null, loading: false, error: error.message }`
(src/unnamed/part_003, line 19). -/
def apiRejectedState (α : Type) (msg : String) : ApiState α :=
  { data := Option.none, loading := false, error := some msg }

/-- Reachable states of the useApi hook: the hook only ever holds its
initial/reset state or one of the two settled states, since every `setState`
call site in src/unnamed/part_003 passes one of these three literals. -/
inductive UseApiReachable (α : Type) : ApiState α → Prop
  | init : UseApiReachable α (apiInitState α)
  | resolve (d : α) : UseApiReachable α (apiResolvedState d)
  | reject (msg : String) : UseApiReachable α (apiRejectedState α msg)

/-- Claim C10.  Every state the useApi hook produces satisfies: if loading is
true then data and error are both null; if error is non-null then data is
null; and data and error are never both non-null. -/
theorem useApi_state_invariant {α : Type} (s : ApiState α)
    (h : UseApiReachable α s) :
    (s.loading = true → s.data = Option.none ∧ s.error = Option.none) ∧
    (s.error ≠ Option.none → s.data = Option.none) ∧
    ¬(s.data ≠ Option.none ∧ s.error ≠ Option.none) := by
  cases h <;>
    simp [apiInitState, apiResolvedState, apiRejectedState]

/-- Claim C10, witness: the invariant at the hook's initial state. -/
theorem useApi_state_invariant_witness :
    ((apiInitState Nat).loading = true →
      (apiInitState Nat).data = Option.none ∧
      (apiInitState Nat).error = Option.none) ∧
    ((apiInitState Nat).error ≠ Option.none →
      (apiInitState Nat).data = Option.none) ∧
    ¬((apiInitState Nat).data ≠ Option.none ∧
      (apiInitState Nat).error ≠ Option.none) :=
  useApi_state_invariant (apiInitState Nat) (UseApiReachable.init)

/-! ## The full per-instrument pipeline, modelled from the spec (§2, §5, §6) -/

/-- Modelled from the spec: a daily price point (§3); dates are modelled as
natural numbers since the engine only ever compares and carries them.  The
TS field `open` is a reserved word in Lean, hence `open_`. -/
structure PricePoint where
  date : Nat
  open_ : ℚ
  high : ℚ
  low : ℚ
  close : ℚ
  volume : ℚ
deriving DecidableEq

/-- Modelled from the spec: the recognized threshold configuration (§6). -/
structure EngineConfig where
  dropThresholdPct : ℚ
  churnBandPct : ℚ
  ftdWindowMin : Nat
  ftdWindowMax : Nat
  ftdGainPct : ℚ
  clusterAlert : Nat
  clusterHigh : Nat
  churnClusterBoost : Nat
  ttlDays : Nat
  ma50BreakRequiresVolumeConfirm : Bool
deriving DecidableEq

/-- Modelled from the spec: the default thresholds (§6). -/
def defaultConfig : EngineConfig :=
  { dropThresholdPct := -2/10
    churnBandPct := 2/10
    ftdWindowMin := 4
    ftdWindowMax := 10
    ftdGainPct := 17/10
    clusterAlert := 4
    clusterHigh := 6
    churnClusterBoost := 2
    ttlDays := 25
    ma50BreakRequiresVolumeConfirm := true }

/-- Modelled from the spec: the trailing moving average of close prices over
`n` days ending at day t (§4.1), undefined until `n` days of history exist. -/
def maN (n : Nat) (series : List PricePoint) (t : Nat) : Option ℚ :=
  if n ≤ t + 1 ∧ t < series.length then
    some ((((series.take (t + 1)).reverse.take n).map PricePoint.close).sum /
      (n : ℚ))
  else Option.none

/-- Modelled from the spec: pctChange at day t (§4.1), undefined at t = 0. -/
def pctAt (series : List PricePoint) (t : Nat) : Option ℚ :=
  if t = 0 then Option.none
  else
    match series[t - 1]?, series[t]? with
    | some prev, some cur => some (pctChangeOf prev.close cur.close)
    | _, _ => Option.none

/-- Modelled from the spec: volumeRatio at day t (§4.1), undefined at t = 0
and sentinel-valued when the previous volume is zero. -/
def vrAt (series : List PricePoint) (t : Nat) : Option ℚ :=
  if t = 0 then Option.none
  else
    match series[t - 1]?, series[t]? with
    | some prev, some cur => volumeRatio prev.volume cur.volume
    | _, _ => Option.none

/-- Distribution-day flag of day t. -/
def ddFlagAt (cfg : EngineConfig) (series : List PricePoint) (t : Nat) :
    Bool :=
  isDistributionDay (pctAt series t) (vrAt series t) cfg.dropThresholdPct

/-- Churn-day flag of day t. -/
def churnFlagAt (cfg : EngineConfig) (series : List PricePoint) (t : Nat) :
    Bool :=
  isChurnDay (pctAt series t) (vrAt series t) cfg.dropThresholdPct
    cfg.churnBandPct

/-- Rolling TTL count of distribution days as of day t, through the
ClusterCounter. -/
def ddCountAt (cfg : EngineConfig) (series : List PricePoint) (t : Nat) :
    Nat :=
  (rollRun cfg.ttlDays
    (((List.range series.length).map (ddFlagAt cfg series)).take (t + 1))).count

/-- Rolling TTL count of churn days as of day t, through the
ClusterCounter. -/
def churnCountAt (cfg : EngineConfig) (series : List PricePoint) (t : Nat) :
    Nat :=
  (rollRun cfg.ttlDays
    (((List.range series.length).map (churnFlagAt cfg series)).take (t + 1))).count

/-- Modelled from the spec: the Day1 candidate test (§4.4 item 1): a day
whose close rises over the previous close without undercutting the previous
low, anchored by a configurable reaction-low rule `reactionOk` — the spec
leaves the reaction-low heuristic open, so it is an input. -/
def isDay1At (reactionOk : Nat → Bool) (series : List PricePoint) (t : Nat) :
    Bool :=
  if t = 0 then false
  else
    match series[t - 1]?, series[t]? with
    | some prev, some cur =>
        reactionOk t && decide (prev.close < cur.close) &&
          decide (prev.low ≤ cur.low)
    | _, _ => false

/-- Modelled from the spec: the state of the RallyFTDDetector inside the
pipeline (§4.4): the cycle status plus the Day1 index and low, the
confirmation index, the invalidation index, and the count of distribution
days within the 5 trading days after confirmation. -/
structure DetectorState where
  status : CycleStatus
  day1 : Option Nat
  day1Low : Option ℚ
  conf : Option Nat
  invalidatedOn : Option Nat
  ddSinceConf : Nat
deriving DecidableEq

/-- Initial detector state: no cycle. -/
def initDetector : DetectorState :=
  { status := .none, day1 := Option.none, day1Low := Option.none,
    conf := Option.none, invalidatedOn := Option.none, ddSinceConf := 0 }

/-- Modelled from the spec: one day of the RallyFTDDetector inside the
pipeline (§4.4).  None moves to Pending on a Day1 candidate; Pending moves
to Active on the first in-window day meeting the gain and volume conditions,
reverts to None once the window has passed unmatched, and re-anchors on a
later Day1 candidate; Active moves to Invalidated on the first day where the
distribution-day count within the 5 trading days after the confirmation
reaches 2 or the close undercuts Day1's low; Invalidated is terminal. -/
def detectorStep (cfg : EngineConfig) (reactionOk : Nat → Bool)
    (series : List PricePoint) (st : DetectorState) (t : Nat) :
    DetectorState :=
  match st.status with
  | .invalidated => st
  | .none =>
      if isDay1At reactionOk series t then
        { st with
            status := .pending
            day1 := some t
            day1Low := (series[t]?).map PricePoint.low }
      else st
  | .pending =>
      match st.day1 with
      | some d1 =>
          let off := t - d1
          if decide (cfg.ftdWindowMin ≤ off) && decide (off ≤ cfg.ftdWindowMax)
              && ftdQualifies (pctAt series) (vrAt series) cfg.ftdGainPct t then
            { st with status := .active, conf := some t, ddSinceConf := 0 }
          else if decide (cfg.ftdWindowMax < off) then
            if isDay1At reactionOk series t then
              { st with
                  day1 := some t
                  day1Low := (series[t]?).map PricePoint.low }
            else
              { st with
                  status := .none
                  day1 := Option.none
                  day1Low := Option.none }
          else if isDay1At reactionOk series t then
            { st with
                day1 := some t
                day1Low := (series[t]?).map PricePoint.low }
          else st
      | Option.none =>
          { st with status := .none }
  | .active =>
      match st.conf with
      | some c =>
          let dd := st.ddSinceConf +
            (if ddFlagAt cfg series t && decide (t ≤ c + 5) then 1 else 0)
          let under :=
            match st.day1Low, series[t]? with
            | some l0, some cur => decide (cur.close < l0)
            | _, _ => false
          if decide (2 ≤ dd) || under then
            { st with
                status := .invalidated
                ddSinceConf := dd
                invalidatedOn := some t }
          else
            { st with ddSinceConf := dd }
      | Option.none => st

/-- Detector state committed after processing days 0 through t. -/
def detectorStateAt (cfg : EngineConfig) (reactionOk : Nat → Bool)
    (series : List PricePoint) (t : Nat) : DetectorState :=
  (List.range (t + 1)).foldl (detectorStep cfg reactionOk series) initDetector

/-- Evidence scalar of a possibly undefined indicator value. -/
def evidenceOfOpt (o : Option ℚ) : EvidenceValue :=
  match o with
  | some q => .num q
  | Option.none => .null

/-- Modelled from the spec: the one-level severity boost applied to a
cluster warning when the churn count reaches the boost threshold (§4.6). -/
def boostSeverity : WarningSeverity → WarningSeverity
  | .info => .watch
  | .watch => .alert
  | .alert => .high
  | .high => .high
  | .invalidated => .invalidated

/-- Modelled from the spec: the per-day top-side MA warnings (§4.6),
mutually exclusive: MA50 break (alert, volume-confirmed when configured),
else MA21 below (watch). -/
def maWarningsAt (cfg : EngineConfig) (series : List PricePoint) (t : Nat) :
    List WarningPayload :=
  match series[t]? with
  | some cur =>
      if ltMA cur.close (maN 50 series t) &&
          (!cfg.ma50BreakRequiresVolumeConfirm ||
            vrGreaterThan (vrAt series t) 1) then
        [{ type_ := .top, code := "MA50_BREAK", severity := .alert,
           message := "close broke below MA50", ttl_days := Option.none,
           evidence := some [("close", .num cur.close),
             ("ma50", evidenceOfOpt (maN 50 series t))] }]
      else if ltMA cur.close (maN 21 series t) then
        [{ type_ := .top, code := "MA21_BELOW", severity := .watch,
           message := "close below MA21", ttl_days := Option.none,
           evidence := some [("close", .num cur.close),
             ("ma21", evidenceOfOpt (maN 21 series t))] }]
      else []
  | Option.none => []

/-- Modelled from the spec: the per-day cluster-level warning (§4.6):
distribution cluster alert once ddCount reaches clusterAlert, upgraded to
high at clusterHigh, boosted one level when the churn count reaches the
configured boost threshold. -/
def clusterWarningsAt (cfg : EngineConfig) (series : List PricePoint)
    (t : Nat) : List WarningPayload :=
  let dd := ddCountAt cfg series t
  let ch := churnCountAt cfg series t
  if decide (cfg.clusterAlert ≤ dd) then
    let base : WarningSeverity :=
      if decide (cfg.clusterHigh ≤ dd) then .high else .alert
    let sev :=
      if decide (cfg.churnClusterBoost ≤ ch) then boostSeverity base else base
    [{ type_ := .top, code := "DD_CLUSTER", severity := sev,
       message := "distribution cluster", ttl_days := some cfg.ttlDays,
       evidence := some [("dd", .num (dd : ℚ)), ("churn", .num (ch : ℚ))] }]
  else []

/-- Top-side warnings of day t: the MA warnings then the cluster warning. -/
def topWarningsAt (cfg : EngineConfig) (series : List PricePoint) (t : Nat) :
    List WarningPayload :=
  maWarningsAt cfg series t ++ clusterWarningsAt cfg series t

/-- Modelled from the spec: the bottom-side warnings of day t (§4.4, §4.6),
exactly those the RallyFTDDetector emits: an info rally-day-1 warning on a
day that (re-)anchors Day1, an alert FTD warning with evidence
{pctChange, volumeRatio, day1Date} on the confirmation day, and an
invalidated-severity warning on the invalidation day. -/
def bottomWarningsAt (cfg : EngineConfig) (reactionOk : Nat → Bool)
    (series : List PricePoint) (t : Nat) : List WarningPayload :=
  let stPrev :=
    if t = 0 then initDetector else detectorStateAt cfg reactionOk series (t - 1)
  let st := detectorStateAt cfg reactionOk series t
  (if st.day1 = some t ∧ stPrev.day1 ≠ some t then
    [{ type_ := .bottom, code := "RALLY_DAY1", severity := .info,
       message := "rally day 1", ttl_days := Option.none,
       evidence := Option.none }]
   else []) ++
  (if st.status = CycleStatus.active ∧ stPrev.status ≠ CycleStatus.active then
    [{ type_ := .bottom, code := "FTD", severity := .alert,
       message := "follow-through day", ttl_days := Option.none,
       evidence := some [("pct", evidenceOfOpt (pctAt series t)),
         ("vol_ratio", evidenceOfOpt (vrAt series t)),
         ("day1", evidenceOfOpt ((st.day1).map (fun d => (d : ℚ))))] }]
   else []) ++
  (if st.status = CycleStatus.invalidated ∧
      stPrev.status ≠ CycleStatus.invalidated then
    [{ type_ := .bottom, code := "FTD_INVALID", severity := .invalidated,
       message := "follow-through day invalidated", ttl_days := Option.none,
       evidence := Option.none }]
   else [])

/-- Regime of day t, through the spec-modelled RegimeClassifier. -/
def regimeAt (cfg : EngineConfig) (reactionOk : Nat → Bool)
    (series : List PricePoint) (t : Nat) : RegimeLabel :=
  match series[t]? with
  | some cur =>
      regimeOf cfg.clusterAlert cfg.clusterHigh (ddCountAt cfg series t)
        cur.close (maN 21 series t) (maN 50 series t)
        (decide ((detectorStateAt cfg reactionOk series t).status =
          CycleStatus.active))
  | Option.none => .neutral

/-- Modelled from the spec: the per-day output record (§6). -/
structure DailyRecord where
  date : Nat
  open_ : ℚ
  high : ℚ
  low : ℚ
  close : ℚ
  volume : ℚ
  ma21 : Option ℚ
  ma50 : Option ℚ
  ma200 : Option ℚ
  pct : Option ℚ
  ddCount : Nat
  churnCount : Nat
  regime : RegimeLabel
  warnings_top : List WarningPayload
  warnings_bottom : List WarningPayload

/-- Output record of day t. -/
def recordAt (cfg : EngineConfig) (reactionOk : Nat → Bool)
    (series : List PricePoint) (t : Nat) : DailyRecord :=
  match series[t]? with
  | some cur =>
      { date := cur.date, open_ := cur.open_, high := cur.high,
        low := cur.low, close := cur.close, volume := cur.volume,
        ma21 := maN 21 series t, ma50 := maN 50 series t,
        ma200 := maN 200 series t, pct := pctAt series t,
        ddCount := ddCountAt cfg series t,
        churnCount := churnCountAt cfg series t,
        regime := regimeAt cfg reactionOk series t,
        warnings_top := topWarningsAt cfg series t,
        warnings_bottom := bottomWarningsAt cfg reactionOk series t }
  | Option.none =>
      { date := 0, open_ := 0, high := 0, low := 0, close := 0, volume := 0,
        ma21 := Option.none, ma50 := Option.none, ma200 := Option.none,
        pct := Option.none, ddCount := 0, churnCount := 0,
        regime := .neutral, warnings_top := [], warnings_bottom := [] }

/-- True for the warnings that count as high priority on the dashboard:
severity alert or high. -/
def isHighPriority (w : WarningPayload) : Bool :=
  decide (w.severity = WarningSeverity.alert) ||
    decide (w.severity = WarningSeverity.high)

/-- Modelled from the spec: the per-instrument summary (§6). -/
structure EngineSummary where
  lastDate : Option Nat
  regime : Option RegimeLabel
  ddCount25d : Nat
  churnCount25d : Nat
  confStatus : CycleStatus
  confDate : Option Nat
  invalidatedOn : Option Nat
  day1Date : Option Nat
  highPriorityWarningCount : Nat

/-- Modelled from the spec: the full per-instrument output (§6): the ordered
per-day record set plus the summary. -/
structure EngineOutput where
  records : List DailyRecord
  summary : EngineSummary

/-- Modelled from the spec: the whole synchronous per-instrument pipeline
(§2, §5) — the backend engine is not under src/.  Raw series through
indicators, day classification, rolling cluster counts, the rally/FTD
detector, regime classification and warning aggregation, then the summary;
a pure function of the input series, the configuration, and the
configurable reaction-low rule. -/
def runPipeline (cfg : EngineConfig) (reactionOk : Nat → Bool)
    (series : List PricePoint) : EngineOutput :=
  let n := series.length
  let records := (List.range n).map (recordAt cfg reactionOk series)
  let lastWarnings :=
    match records.getLast? with
    | some r => r.warnings_top ++ r.warnings_bottom
    | Option.none => []
  { records := records
    summary :=
      { lastDate := (series.getLast?).map PricePoint.date
        regime :=
          if n = 0 then Option.none
          else some (regimeAt cfg reactionOk series (n - 1))
        ddCount25d := if n = 0 then 0 else ddCountAt cfg series (n - 1)
        churnCount25d := if n = 0 then 0 else churnCountAt cfg series (n - 1)
        confStatus :=
          if n = 0 then CycleStatus.none
          else (detectorStateAt cfg reactionOk series (n - 1)).status
        confDate :=
          if n = 0 then Option.none
          else (detectorStateAt cfg reactionOk series (n - 1)).conf
        invalidatedOn :=
          if n = 0 then Option.none
          else (detectorStateAt cfg reactionOk series (n - 1)).invalidatedOn
        day1Date :=
          if n = 0 then Option.none
          else (detectorStateAt cfg reactionOk series (n - 1)).day1
        highPriorityWarningCount := lastWarnings.countP isHighPriority } }

/-- Claim C9.  The engine is deterministic: the pipeline is a pure function
of its input series, configuration, and reaction-low rule, with no clock or
external state, so two runs on identical inputs yield identical outputs —
identical warnings, regime labels, and summaries. -/
theorem engine_deterministic (cfg cfg' : EngineConfig)
    (reactionOk reactionOk' : Nat → Bool)
    (series series' : List PricePoint)
    (hc : cfg = cfg') (hr : reactionOk = reactionOk')
    (hs : series = series') :
    runPipeline cfg reactionOk series =
      runPipeline cfg' reactionOk' series' := by
  subst hc
  subst hr
  subst hs
  rfl

/-- Concrete two-day series used to exercise the pipeline. -/
def demoSeries : List PricePoint :=
  [{ date := 0, open_ := 100, high := 101, low := 99, close := 100,
     volume := 1000 },
   { date := 1, open_ := 100, high := 102, low := 100, close := 101,
     volume := 1200 }]

/-- Claim C9, witness: two runs of the pipeline on the default
configuration and a concrete series coincide. -/
theorem engine_deterministic_witness :
    runPipeline defaultConfig (fun _ => true) demoSeries =
      runPipeline defaultConfig (fun _ => true) demoSeries :=
  engine_deterministic defaultConfig defaultConfig (fun _ => true)
    (fun _ => true) demoSeries demoSeries rfl rfl rfl

end MarketGuard
